import Mathlib

/-!
# SmartPlateESP32 — verification of the thermal loop, heater mode manager and stirrer

Shallow embedding of the control core of the SmartPlateESP32 firmware:

* `HeatingElement` — `src/src/heating/HeatingElement.cpp` (bang-bang thermal loop,
  fault handling);
* `HeaterModeManager` — `src/src/heating/HeaterModeManager.cpp` (OFF/RAMP/HOLD/TIMER
  mode state machine);
* `StirrerPhase` — `src/src/stirrer.cpp` (zero-cross detection, firing scheduler,
  gate driver, RPM-to-delay mapping).

Modelling conventions:

* C++ `float` values are modelled as exact rationals (`ℚ`); a temperature sample,
  which in the firmware can be IEEE NaN (`NAN` initial value, broken sensor reading),
  is modelled by the type `Temp` with an explicit `nan` constructor.  C comparison
  semantics on NaN (every ordered comparison is false, `std::isnan` detects it) are
  reproduced by the boolean comparison functions on `Temp`.
* Callback invocations (`onFault()`, `onHeaterOn()`, …) are modelled by counters in
  the state: each counter counts how often the corresponding callback point was hit.
* GPIO levels (relay pin, MOC gate pin) are modelled as `Bool` fields of the state.
* The one-shot hardware timers are modelled by `armed` flags plus an arm counter;
  the timer callbacks are explicit state transitions.
* Machine integers: `uint32_t` microsecond quantities are `ℕ` (the only subtraction,
  `halfCycleUs - 200`, never underflows for the constructor-produced values 10000 and
  8333, so truncated `ℕ` subtraction agrees with the C unsigned subtraction there);
  `int64_t` timestamps are `ℤ`; `unsigned long` millisecond clocks are `ℕ` and the
  `millis() - startTime` subtractions are taken under a `startTime ≤ now` hypothesis.
* The MAX31865 sensor driver, GPIO/ISR registration and logging are external
  collaborators: the per-sample pipeline entry point is `processTemperatureReading`
  (the tail of `HeatingElement::update()` after the sensor read), and the zero-cross
  interrupt is the transition `zc_isr_handler` applied to an edge timestamp.
* The write-only temperature ring buffer (`tempBuffer`) of `HeatingElement` is kept
  only as its index `tempIndex`; its contents are never read by the firmware.
-/

/-- A C++ `float` temperature sample: either IEEE NaN or a (rational) value. -/
inductive Temp where
  | nan : Temp
  | val : ℚ → Temp
deriving DecidableEq

namespace Temp

/-- `std::isnan(t)`. -/
def isNan : Temp → Bool
  | nan => true
  | val _ => false

/-- C comparison `t < q` (false when `t` is NaN). -/
def bLt : Temp → ℚ → Bool
  | nan, _ => false
  | val x, q => decide (x < q)

/-- C comparison `t > q` (false when `t` is NaN). -/
def bGt : Temp → ℚ → Bool
  | nan, _ => false
  | val x, q => decide (q < x)

/-- C comparison `t >= q` (false when `t` is NaN). -/
def bGe : Temp → ℚ → Bool
  | nan, _ => false
  | val x, q => decide (q ≤ x)

/-- C comparison `t <= q` (false when `t` is NaN). -/
def bLe : Temp → ℚ → Bool
  | nan, _ => false
  | val x, q => decide (x ≤ q)

/-- C expression `std::abs(a - b) > eps` (false when either side is NaN);
`|a - b| > eps` is unfolded to the two strict comparisons to stay kernel-reducible. -/
def absDiffGt : Temp → Temp → ℚ → Bool
  | nan, _, _ => false
  | _, nan, _ => false
  | val a, val b, eps => decide (eps < a - b) || decide (eps < b - a)

end Temp

namespace HeatingElement

/-- State of one `HeatingElement` instance (`src/src/heating/HeatingElement.h`).
Callback counters model the callback invocation points of the `.cpp` file. -/
structure State where
  maxTemp : ℚ
  isRunning_ : Bool
  fault : Bool
  currentTemp : Temp
  targetTemp : ℚ
  targetTolerance : ℚ
  targetTempSet : Bool
  targetReachedTriggered : Bool
  tempFilterSize : ℕ
  tempIndex : ℕ
  faultCbCount : ℕ
  heaterOnCbCount : ℕ
  heaterOffCbCount : ℕ
  targetReachedCbCount : ℕ
  tempChangedCbCount : ℕ
deriving DecidableEq

/-- `TEMP_CHANGE_THRESHOLD = 0.1f`. -/
def TEMP_CHANGE_THRESHOLD : ℚ := 1/10

/-- `DEFAULT_TOLERANCE = 1.0f`. -/
def DEFAULT_TOLERANCE : ℚ := 1

/-- Constructor-produced state: relay off, no fault, `currentTemp = NAN`. -/
def init (maxTempLimit : ℚ) (filterSize : ℕ) : State :=
  { maxTemp := maxTempLimit
    isRunning_ := false
    fault := false
    currentTemp := Temp.nan
    targetTemp := 0
    targetTolerance := DEFAULT_TOLERANCE
    targetTempSet := false
    targetReachedTriggered := false
    tempFilterSize := filterSize
    tempIndex := 0
    faultCbCount := 0
    heaterOnCbCount := 0
    heaterOffCbCount := 0
    targetReachedCbCount := 0
    tempChangedCbCount := 0 }

/-- `HeatingElement::setRelay(bool on)`: drive the relay pin and fire the
on/off callbacks on edges. -/
def setRelay (s : State) (relayOn : Bool) : State :=
  if relayOn && !s.isRunning_ then
    { s with isRunning_ := true, heaterOnCbCount := s.heaterOnCbCount + 1 }
  else if !relayOn && s.isRunning_ then
    { s with isRunning_ := false, heaterOffCbCount := s.heaterOffCbCount + 1 }
  else s

/-- `HeatingElement::start()`: refused while `fault`. -/
def start (s : State) : State :=
  if s.fault then s
  else if !s.isRunning_ then setRelay s true
  else s

/-- `HeatingElement::stop()`. -/
def stop (s : State) : State :=
  if s.isRunning_ then setRelay s false else s

/-- `HeatingElement::setTargetTemperature(float target, float tolerance)`. -/
def setTargetTemperature (s : State) (target tolerance : ℚ) : State :=
  { s with targetTemp := target
           targetTolerance := tolerance
           targetTempSet := true
           targetReachedTriggered := false }

/-- `HeatingElement::clearTargetTemperature()`. -/
def clearTargetTemperature (s : State) : State :=
  { s with targetTempSet := false, targetReachedTriggered := false }

/-- `HeatingElement::checkFaultConditions(float temp)`: over-temperature fault,
invalid-reading fault, then 5 °C-hysteresis fault clearing. -/
def checkFaultConditions (s : State) (temp : Temp) : State :=
  if temp.bGe s.maxTemp then
    let s1 := stop { s with fault := true }
    { s1 with faultCbCount := s1.faultCbCount + 1 }
  else if temp.isNan || temp.bLt (-50) || temp.bGt 500 then
    let s1 := stop { s with fault := true }
    { s1 with faultCbCount := s1.faultCbCount + 1 }
  else if s.fault && temp.bLt (s.maxTemp - 5) then
    { s with fault := false }
  else s

/-- `HeatingElement::executeBangBangControl()`: hysteresis relay decision and
target-reached edge detection on `currentTemp`. -/
def executeBangBangControl (s : State) : State :=
  if !s.targetTempSet then s
  else
    let s1 :=
      if s.currentTemp.bLt (s.targetTemp - s.targetTolerance) then setRelay s true
      else if s.currentTemp.bGe (s.targetTemp + s.targetTolerance) then setRelay s false
      else s
    if s1.isRunning_ && s1.targetTempSet
        && s1.currentTemp.bGe (s1.targetTemp - s1.targetTolerance)
        && s1.currentTemp.bLe (s1.targetTemp + s1.targetTolerance)
        && !s1.targetReachedTriggered then
      { s1 with targetReachedTriggered := true
                targetReachedCbCount := s1.targetReachedCbCount + 1 }
    else if s1.currentTemp.bLt (s1.targetTemp - s1.targetTolerance) then
      { s1 with targetReachedTriggered := false }
    else s1

/-- `HeatingElement::processTemperatureReading(float temp)`: the per-sample
pipeline of `update()` after the sensor read — store the sample, fire the
temperature-changed callback on significant change, check faults, and run
bang-bang control when no fault remains. -/
def processTemperatureReading (s : State) (temp : Temp) : State :=
  let previousTemp := s.currentTemp
  let s1 := { s with tempIndex := (s.tempIndex + 1) % s.tempFilterSize
                     currentTemp := temp }
  let s2 :=
    if previousTemp.isNan || Temp.absDiffGt temp previousTemp TEMP_CHANGE_THRESHOLD then
      { s1 with tempChangedCbCount := s1.tempChangedCbCount + 1 }
    else s1
  let s3 := checkFaultConditions s2 temp
  if !s3.fault then executeBangBangControl s3 else s3

/-- Feed a sequence of temperature samples through the per-sample pipeline. -/
def run (s : State) (temps : List Temp) : State :=
  temps.foldl processTemperatureReading s

end HeatingElement

namespace StirrerPhase

/-- State of the single `StirrerPhase` instance (`src/src/stirrer.h`, `stirrer.cpp`).
The two one-shot esp_timers are modelled by `armed` flags; `armCount` counts
`esp_timer_start_once(delayTimer, …)` calls; `mocLevel` is the MOC gate GPIO. -/
structure State where
  halfCycleUs : ℕ
  delayUs : ℕ
  fireScheduled : Bool
  lastZcUsec : ℤ
  targetRpm : ℚ
  currentEstimate : Temp
  running : Bool
  fault : Bool
  minPercent : ℚ
  maxPercent : ℚ
  maxRpm : ℚ
  gatePulseUs : ℕ
  mocLevel : Bool
  delayTimerArmed : Bool
  pulseTimerArmed : Bool
  armCount : ℕ
  onStartCbCount : ℕ
  onStopCbCount : ℕ
  onSpeedChangedCbCount : ℕ
deriving DecidableEq

/-- The constructor: `halfCycleUs = 1000000/100 = 10000` for 50 Hz mains, else
`1000000/120 = 8333`; header defaults `minPercent = 5`, `maxPercent = 95`,
`maxRpm = 3000`, `gatePulseUs = 120`; `begin()` drives the MOC pin low. -/
def init (mainsHz : ℤ) : State :=
  { halfCycleUs := if mainsHz = 50 then 1000000 / 100 else 1000000 / 120
    delayUs := 0
    fireScheduled := false
    lastZcUsec := 0
    targetRpm := 0
    currentEstimate := Temp.nan
    running := false
    fault := false
    minPercent := 5
    maxPercent := 95
    maxRpm := 3000
    gatePulseUs := 120
    mocLevel := false
    delayTimerArmed := false
    pulseTimerArmed := false
    armCount := 0
    onStartCbCount := 0
    onStopCbCount := 0
    onSpeedChangedCbCount := 0 }

/-- `StirrerPhase::start()`. -/
def start (s : State) : State :=
  if !s.running && !s.fault then
    { s with running := true, onStartCbCount := s.onStartCbCount + 1 }
  else s

/-- `StirrerPhase::stop()`: clears `running`, drives the MOC gate low and fires the
stop callback.  (It does not stop the delay timer and does not clear
`fireScheduled`.) -/
def stop (s : State) : State :=
  if s.running then
    { s with running := false, mocLevel := false, onStopCbCount := s.onStopCbCount + 1 }
  else s

/-- `StirrerPhase::rpmToPercent(float rpm)`: `(rpm / maxRpm) * 100`. -/
def rpmToPercent (s : State) (rpm : ℚ) : ℚ :=
  rpm / s.maxRpm * 100

/-- `StirrerPhase::computeDelayFromPercent(float pct)`: clamp into
`[minPercent, maxPercent]`, normalize, gamma-map with `gamma = 2.0`
(`powf(x, 2.0f)` is `x * x`), scale by the half-cycle and clamp to
`halfCycleUs - 200`.  The C cast `(uint32_t)(alphaFrac * halfCycleUs)`
truncates toward zero; `alphaFrac * halfCycleUs` is nonnegative here, so it
is the floor. -/
def computeDelayFromPercent (s : State) (pct : ℚ) : ℕ :=
  let p1 := if pct ≤ s.minPercent then s.minPercent else pct
  let p2 := if p1 ≥ s.maxPercent then s.maxPercent else p1
  let x := (p2 - s.minPercent) / (s.maxPercent - s.minPercent)
  let powerFrac := x * x
  let alphaFrac := 1 - powerFrac
  let d := ⌊alphaFrac * (s.halfCycleUs : ℚ)⌋.toNat
  if d > s.halfCycleUs - 200 then s.halfCycleUs - 200 else d

/-- `StirrerPhase::setTargetRPM(float rpm)`: store the target, map to percent,
clamp, and store the computed delay for the ISR to read. -/
def setTargetRPM (s : State) (rpm : ℚ) : State :=
  let pct0 := rpmToPercent s rpm
  let pct1 := if pct0 < s.minPercent then s.minPercent else pct0
  let pct2 := if pct1 > s.maxPercent then s.maxPercent else pct1
  { s with targetRpm := rpm, delayUs := computeDelayFromPercent s pct2 }

/-- `StirrerPhase::scheduleFireFromNow(uint32_t us)`: refuse when not running or
when `us >= halfCycleUs`; otherwise re-arm the single-shot delay timer and set
`fireScheduled`. -/
def scheduleFireFromNow (s : State) (us : ℕ) : State :=
  if !s.running then s
  else if us ≥ s.halfCycleUs then s
  else
    { s with delayTimerArmed := true
             armCount := s.armCount + 1
             fireScheduled := true }

/-- `StirrerPhase::zc_isr_handler`: `lastZcUsec.exchange(now)` happens first and
therefore stores the new timestamp even for an edge that the debounce test then
discards; the debounce test compares against the exchanged-out previous value. -/
def zc_isr_handler (s : State) (now : ℤ) : State :=
  let prev := s.lastZcUsec
  let s1 := { s with lastZcUsec := now }
  let thresh : ℕ := s.halfCycleUs / 3
  if prev ≠ 0 && now - prev < (thresh : ℤ) then s1
  else scheduleFireFromNow s1 s1.delayUs

/-- `StirrerPhase::delayTimerCb`: guarded only by `fireScheduled` (not by
`running`) — assert the MOC gate, arm the pulse-off timer, clear `fireScheduled`. -/
def delayTimerCb (s : State) : State :=
  if !s.fireScheduled then s
  else
    { s with mocLevel := true
             pulseTimerArmed := true
             fireScheduled := false }

/-- `StirrerPhase::pulseTimerCb`: drive the MOC gate low again. -/
def pulseTimerCb (s : State) : State :=
  { s with mocLevel := false, pulseTimerArmed := false }

/-- `StirrerPhase::update()`: open-loop estimate pass-through with the 0.5-RPM
speed-changed callback threshold. -/
def update (s : State) : State :=
  let prev := s.currentEstimate
  let t := s.targetRpm
  let s1 := { s with currentEstimate := Temp.val t }
  if prev.isNan || Temp.absDiffGt prev (Temp.val t) (1/2) then
    { s1 with onSpeedChangedCbCount := s1.onSpeedChangedCbCount + 1 }
  else s1

end StirrerPhase

namespace HeaterModeManager

/-- `HeaterModeManager::Mode`. -/
inductive Mode where
  | OFF : Mode
  | RAMP : Mode
  | HOLD : Mode
  | TIMER : Mode
deriving DecidableEq

/-- Ramp mode parameters (durations and times in milliseconds). -/
structure RampParams where
  startTemp : ℚ
  endTemp : ℚ
  duration : ℕ
  startTime : ℕ
  tolerance : ℚ
deriving DecidableEq

/-- Hold mode parameters. -/
structure HoldParams where
  targetTemp : ℚ
  tolerance : ℚ
deriving DecidableEq

/-- Timer mode parameters (durations and times in milliseconds). -/
structure TimerParams where
  duration : ℕ
  startTime : ℕ
  targetTemp : ℚ
  useTemp : Bool
  tolerance : ℚ
deriving DecidableEq

/-- `DEFAULT_TOLERANCE = 0.5f`. -/
def DEFAULT_TOLERANCE : ℚ := 1/2

/-- `HOLD_HYSTERESIS = 1.0f`. -/
def HOLD_HYSTERESIS : ℚ := 1

/-- State of a `HeaterModeManager` together with its owned `HeatingElement`
(the C++ object holds the heater by reference; here the pair is one state). -/
structure State where
  mode : Mode
  rampParams : RampParams
  holdParams : HoldParams
  timerParams : TimerParams
  heater : HeatingElement.State
  onCompleteCbCount : ℕ
  onFaultCbCount : ℕ
deriving DecidableEq

/-- Constructor-produced state wrapping a heater. -/
def init (heater : HeatingElement.State) : State :=
  { mode := Mode.OFF
    rampParams := ⟨0, 0, 0, 0, DEFAULT_TOLERANCE⟩
    holdParams := ⟨0, DEFAULT_TOLERANCE⟩
    timerParams := ⟨0, 0, 0, false, DEFAULT_TOLERANCE⟩
    heater := heater
    onCompleteCbCount := 0
    onFaultCbCount := 0 }

/-- `HeaterModeManager::setOff()`. -/
def setOff (s : State) : State :=
  { s with mode := Mode.OFF
           heater := HeatingElement.clearTargetTemperature (HeatingElement.stop s.heater) }

/-- `HeaterModeManager::setRamp(startTemp, endTemp, durationSeconds, tolerance)`
entered at millisecond clock value `now` (`millis()`). -/
def setRamp (s : State) (startTemp endTemp : ℚ) (durationSeconds : ℕ) (tolerance : ℚ)
    (now : ℕ) : State :=
  { s with mode := Mode.RAMP
           rampParams := ⟨startTemp, endTemp, durationSeconds * 1000, now, tolerance⟩
           heater := HeatingElement.start
             (HeatingElement.setTargetTemperature s.heater startTemp tolerance) }

/-- `HeaterModeManager::setHold(holdTemp, tolerance)`. -/
def setHold (s : State) (holdTemp tolerance : ℚ) : State :=
  { s with mode := Mode.HOLD
           holdParams := ⟨holdTemp, tolerance⟩
           heater := HeatingElement.start
             (HeatingElement.setTargetTemperature s.heater holdTemp tolerance) }

/-- `HeaterModeManager::setTimer(durationSeconds, targetTemp, useTemp, tolerance)`
entered at millisecond clock value `now`. -/
def setTimer (s : State) (durationSeconds : ℕ) (targetTemp : ℚ) (useTemp : Bool)
    (tolerance : ℚ) (now : ℕ) : State :=
  let s1 := { s with mode := Mode.TIMER
                     timerParams := ⟨durationSeconds * 1000, now, targetTemp, useTemp, tolerance⟩ }
  let s2 := if useTemp then
      { s1 with heater := HeatingElement.setTargetTemperature s1.heater targetTemp tolerance }
    else s1
  { s2 with heater := HeatingElement.start s2.heater }

/-- `HeaterModeManager::calculateRampTarget()` evaluated at clock value `now`. -/
def calculateRampTarget (s : State) (now : ℕ) : ℚ :=
  let elapsed : ℚ := ((now - s.rampParams.startTime : ℕ) : ℚ)
  let progress0 := elapsed / (s.rampParams.duration : ℚ)
  let progress := min 1 (max 0 progress0)
  s.rampParams.startTemp + (s.rampParams.endTemp - s.rampParams.startTemp) * progress

/-- `HeaterModeManager::updateRampMode()` at clock value `now`. -/
def updateRampMode (s : State) (now : ℕ) : State :=
  let elapsed := now - s.rampParams.startTime
  if elapsed ≥ s.rampParams.duration then
    let s1 := { s with heater :=
      HeatingElement.setTargetTemperature s.heater s.rampParams.endTemp s.rampParams.tolerance }
    let s2 := { s1 with onCompleteCbCount := s1.onCompleteCbCount + 1 }
    setOff s2
  else
    let s1 := { s with heater :=
      HeatingElement.setTargetTemperature s.heater (calculateRampTarget s now) s.rampParams.tolerance }
    if !s1.heater.isRunning_ then { s1 with heater := HeatingElement.start s1.heater }
    else s1

/-- `HeaterModeManager::updateHoldMode(float currentTemp)`. -/
def updateHoldMode (s : State) (currentTemp : Temp) : State :=
  if !s.heater.isRunning_
      && currentTemp.bLt (s.holdParams.targetTemp - HOLD_HYSTERESIS) then
    { s with heater := HeatingElement.start s.heater }
  else s

/-- `HeaterModeManager::updateTimerMode()` at clock value `now`. -/
def updateTimerMode (s : State) (now : ℕ) : State :=
  let elapsed := now - s.timerParams.startTime
  if elapsed ≥ s.timerParams.duration then
    setOff { s with onCompleteCbCount := s.onCompleteCbCount + 1 }
  else if !s.heater.isRunning_ then { s with heater := HeatingElement.start s.heater }
  else s

/-- `HeaterModeManager::handleFault()`. -/
def handleFault (s : State) : State :=
  setOff { s with onFaultCbCount := s.onFaultCbCount + 1 }

/-- `HeaterModeManager::update(float currentTemp)` at clock value `now`. -/
def update (s : State) (currentTemp : Temp) (now : ℕ) : State :=
  if s.heater.fault then handleFault s
  else
    match s.mode with
    | Mode.OFF =>
        if s.heater.isRunning_ then { s with heater := HeatingElement.stop s.heater } else s
    | Mode.RAMP => updateRampMode s now
    | Mode.HOLD => updateHoldMode s currentTemp
    | Mode.TIMER => updateTimerMode s now

end HeaterModeManager


namespace Temp

theorem bGe_eq_false_of_bLt {t : Temp} {a : ℚ} (h : t.bLt a = true) : t.bGe a = false := by
  cases t <;> simp_all [bLt, bGe]

theorem bLt_eq_false_of_bGe {t : Temp} {a : ℚ} (h : t.bGe a = true) : t.bLt a = false := by
  cases t <;> simp_all [bLt, bGe]

theorem val_bLt (q a : ℚ) : (val q).bLt a = decide (q < a) := rfl

theorem val_bGt (q a : ℚ) : (val q).bGt a = decide (a < q) := rfl

theorem val_bGe (q a : ℚ) : (val q).bGe a = decide (a ≤ q) := rfl

theorem val_bLe (q a : ℚ) : (val q).bLe a = decide (q ≤ a) := rfl

theorem val_isNan (q : ℚ) : (val q).isNan = false := rfl

end Temp

namespace HeatingElement

theorem stop_eq (s : State) :
    stop s = if s.isRunning_ then
      { s with isRunning_ := false, heaterOffCbCount := s.heaterOffCbCount + 1 }
    else s := by
  unfold stop setRelay
  split_ifs <;> simp_all

theorem start_eq (s : State) :
    start s = if s.fault then s
      else if s.isRunning_ then s
      else { s with isRunning_ := true, heaterOnCbCount := s.heaterOnCbCount + 1 } := by
  unfold start setRelay
  split_ifs <;> simp_all


theorem checkFault_overtemp (s : State) (t : Temp) (h : t.bGe s.maxTemp = true) :
    checkFaultConditions s t =
      let s1 := stop { s with fault := true }
      { s1 with faultCbCount := s1.faultCbCount + 1 } := by
  unfold checkFaultConditions
  simp [h]

theorem checkFault_invalid (s : State) (t : Temp)
    (hov : t.bGe s.maxTemp = false)
    (hinv : (t.isNan || t.bLt (-50) || t.bGt 500) = true) :
    checkFaultConditions s t =
      let s1 := stop { s with fault := true }
      { s1 with faultCbCount := s1.faultCbCount + 1 } := by
  unfold checkFaultConditions
  simp [hov, hinv]

theorem checkFault_clear (s : State) (t : Temp)
    (hov : t.bGe s.maxTemp = false)
    (hnan : t.isNan = false) (hlo : t.bLt (-50) = false) (hhi : t.bGt 500 = false)
    (hf : s.fault = true) (hcl : t.bLt (s.maxTemp - 5) = true) :
    checkFaultConditions s t = { s with fault := false } := by
  unfold checkFaultConditions
  simp [hov, hnan, hlo, hhi, hf, hcl]

theorem checkFault_keep (s : State) (t : Temp)
    (hov : t.bGe s.maxTemp = false)
    (hnan : t.isNan = false) (hlo : t.bLt (-50) = false) (hhi : t.bGt 500 = false)
    (hcl : (s.fault && t.bLt (s.maxTemp - 5)) = false) :
    checkFaultConditions s t = s := by
  unfold checkFaultConditions
  simp [hov, hnan, hlo, hhi, hcl]

theorem heating_overtemp_step (s : State) (q : ℚ) (h : s.maxTemp ≤ q) :
    (processTemperatureReading s (Temp.val q)).fault = true
    ∧ (processTemperatureReading s (Temp.val q)).isRunning_ = false
    ∧ (processTemperatureReading s (Temp.val q)).faultCbCount = s.faultCbCount + 1
    ∧ (processTemperatureReading s (Temp.val q)).heaterOnCbCount = s.heaterOnCbCount
    ∧ (processTemperatureReading s (Temp.val q)).targetReachedTriggered
        = s.targetReachedTriggered
    ∧ (processTemperatureReading s (Temp.val q)).targetReachedCbCount
        = s.targetReachedCbCount := by
  simp only [processTemperatureReading]
  split_ifs <;> simp_all [checkFault_overtemp, stop_eq, Temp.bGe, h] <;>
    split_ifs <;> simp_all

theorem setRelay_true_eq (s : State) :
    setRelay s true = if s.isRunning_ then s
      else { s with isRunning_ := true, heaterOnCbCount := s.heaterOnCbCount + 1 } := by
  unfold setRelay
  split_ifs <;> simp_all

theorem setRelay_false_eq (s : State) :
    setRelay s false = if s.isRunning_ then
      { s with isRunning_ := false, heaterOffCbCount := s.heaterOffCbCount + 1 }
    else s := by
  unfold setRelay
  split_ifs <;> simp_all

theorem bang_notset (s : State) (h : s.targetTempSet = false) :
    executeBangBangControl s = s := by
  unfold executeBangBangControl
  simp [h]

theorem bang_fields (s : State) :
    (executeBangBangControl s).fault = s.fault
    ∧ (executeBangBangControl s).targetTempSet = s.targetTempSet
    ∧ (executeBangBangControl s).targetTemp = s.targetTemp
    ∧ (executeBangBangControl s).targetTolerance = s.targetTolerance
    ∧ (executeBangBangControl s).maxTemp = s.maxTemp
    ∧ (executeBangBangControl s).currentTemp = s.currentTemp
    ∧ (executeBangBangControl s).faultCbCount = s.faultCbCount := by
  unfold executeBangBangControl setRelay
  split_ifs <;> simp_all <;> split_ifs <;> simp_all

theorem bang_on (s : State) (h1 : s.targetTempSet = true)
    (h2 : s.currentTemp.bLt (s.targetTemp - s.targetTolerance) = true) :
    (executeBangBangControl s).isRunning_ = true := by
  unfold executeBangBangControl
  simp only [h1, h2, Temp.bGe_eq_false_of_bLt h2, setRelay_true_eq]
  split_ifs <;> simp_all

theorem bang_off (s : State) (h1 : s.targetTempSet = true)
    (h2 : s.currentTemp.bLt (s.targetTemp - s.targetTolerance) = false)
    (h3 : s.currentTemp.bGe (s.targetTemp + s.targetTolerance) = true) :
    (executeBangBangControl s).isRunning_ = false := by
  unfold executeBangBangControl
  simp only [h1, h2, h3, setRelay_false_eq]
  split_ifs <;> simp_all

theorem bang_keep (s : State) (h1 : s.targetTempSet = true)
    (h2 : s.currentTemp.bLt (s.targetTemp - s.targetTolerance) = false)
    (h3 : s.currentTemp.bGe (s.targetTemp + s.targetTolerance) = false) :
    (executeBangBangControl s).isRunning_ = s.isRunning_
    ∧ (executeBangBangControl s).heaterOnCbCount = s.heaterOnCbCount
    ∧ (executeBangBangControl s).heaterOffCbCount = s.heaterOffCbCount := by
  unfold executeBangBangControl
  simp only [h1, h2, h3]
  split_ifs <;> simp_all

theorem processTemp_shape (s : State) (t : Temp) :
    ∃ c : ℕ, processTemperatureReading s t =
      (let s2 : State := { s with currentTemp := t
                                  tempIndex := (s.tempIndex + 1) % s.tempFilterSize
                                  tempChangedCbCount := c }
       let s3 := checkFaultConditions s2 t
       if !s3.fault then executeBangBangControl s3 else s3) := by
  simp only [processTemperatureReading]
  by_cases h1 : (s.currentTemp.isNan || t.absDiffGt s.currentTemp TEMP_CHANGE_THRESHOLD) = true
  · refine ⟨s.tempChangedCbCount + 1, ?_⟩
    rw [if_pos h1]
  · refine ⟨s.tempChangedCbCount, ?_⟩
    rw [if_neg h1]

theorem processTemp_nofault_inrange (s : State) (q : ℚ)
    (hf : s.fault = false) (htol : 0 ≤ s.targetTolerance)
    (hlo : (-50:ℚ) ≤ q) (hhi : q ≤ 500) (hmax : q < s.maxTemp) :
    (processTemperatureReading s (Temp.val q)).fault = false
    ∧ (processTemperatureReading s (Temp.val q)).targetTempSet = s.targetTempSet
    ∧ (processTemperatureReading s (Temp.val q)).targetTemp = s.targetTemp
    ∧ (processTemperatureReading s (Temp.val q)).targetTolerance = s.targetTolerance
    ∧ (processTemperatureReading s (Temp.val q)).maxTemp = s.maxTemp
    ∧ (s.targetTempSet = false →
        (processTemperatureReading s (Temp.val q)).isRunning_ = s.isRunning_)
    ∧ (s.targetTempSet = true → q < s.targetTemp - s.targetTolerance →
        (processTemperatureReading s (Temp.val q)).isRunning_ = true)
    ∧ (s.targetTempSet = true → s.targetTemp - s.targetTolerance ≤ q →
        q < s.targetTemp + s.targetTolerance →
        (processTemperatureReading s (Temp.val q)).isRunning_ = s.isRunning_)
    ∧ (s.targetTempSet = true → s.targetTemp + s.targetTolerance ≤ q →
        (processTemperatureReading s (Temp.val q)).isRunning_ = false) := by
  have hov : (Temp.val q).bGe s.maxTemp = false := by
    simp [Temp.bGe]
    linarith
  have hlo' : (Temp.val q).bLt (-50) = false := by
    simp [Temp.bLt]
    linarith
  have hhi' : (Temp.val q).bGt 500 = false := by
    simp [Temp.bGt]
    linarith
  obtain ⟨c, hc⟩ := processTemp_shape s (Temp.val q)
  have hkeep := checkFault_keep
    { s with currentTemp := Temp.val q
             tempIndex := (s.tempIndex + 1) % s.tempFilterSize
             tempChangedCbCount := c }
    (Temp.val q) hov (Temp.val_isNan q) hlo' hhi' (by simp [hf])
  rw [hc]
  simp only []
  rw [hkeep]
  simp only [hf, Bool.not_false, if_true]
  refine ⟨?_, ?_, ?_, ?_, ?_, ?_, ?_, ?_, ?_⟩
  · simpa [hf] using (bang_fields _).1
  · simpa using (bang_fields _).2.1
  · simpa using (bang_fields _).2.2.1
  · simpa using (bang_fields _).2.2.2.1
  · simpa using (bang_fields _).2.2.2.2.1
  · intro hset
    rw [bang_notset _ (by simpa using hset)]
  · intro hset hq
    apply bang_on
    · simpa using hset
    · simp [Temp.bLt]
      linarith
  · intro hset hq1 hq2
    have := bang_keep (s := { s with fault := false
                                     currentTemp := Temp.val q
                                     tempIndex := (s.tempIndex + 1) % s.tempFilterSize
                                     tempChangedCbCount := c })
      (by simpa using hset)
      (by simp [Temp.bLt]; linarith)
      (by simp [Temp.bGe]; linarith)
    simpa using this.1
  · intro hset hq
    apply bang_off
    · simpa using hset
    · simp [Temp.bLt]
      linarith
    · simp [Temp.bGe]
      linarith

theorem checkFault_fault (s : State) (t : Temp)
    (h : t.bGe s.maxTemp = true ∨ (t.isNan || t.bLt (-50) || t.bGt 500) = true) :
    checkFaultConditions s t =
      let s1 := stop { s with fault := true }
      { s1 with faultCbCount := s1.faultCbCount + 1 } := by
  rcases h with h | h
  · exact checkFault_overtemp s t h
  · cases hb : t.bGe s.maxTemp
    · exact checkFault_invalid s t hb h
    · exact checkFault_overtemp s t hb

theorem processTemp_faultpath (s : State) (t : Temp)
    (h : t.bGe s.maxTemp = true ∨ (t.isNan || t.bLt (-50) || t.bGt 500) = true) :
    (processTemperatureReading s t).fault = true
    ∧ (processTemperatureReading s t).isRunning_ = false
    ∧ (processTemperatureReading s t).faultCbCount = s.faultCbCount + 1
    ∧ (processTemperatureReading s t).heaterOnCbCount = s.heaterOnCbCount
    ∧ (processTemperatureReading s t).targetReachedTriggered = s.targetReachedTriggered
    ∧ (processTemperatureReading s t).targetReachedCbCount = s.targetReachedCbCount := by
  obtain ⟨c, hc⟩ := processTemp_shape s t
  have hcf := checkFault_fault
    { s with currentTemp := t
             tempIndex := (s.tempIndex + 1) % s.tempFilterSize
             tempChangedCbCount := c } t h
  rw [hc]
  simp only []
  rw [hcf]
  simp only [stop_eq]
  by_cases hrun : s.isRunning_ = true <;> simp_all

theorem processTemp_clear (s : State) (q : ℚ)
    (hf : s.fault = true) (hlo : (-50:ℚ) ≤ q) (hhi : q ≤ 500) (hcl : q < s.maxTemp - 5) :
    (processTemperatureReading s (Temp.val q)).fault = false
    ∧ (s.targetTempSet = true → q < s.targetTemp - s.targetTolerance →
        (processTemperatureReading s (Temp.val q)).isRunning_ = true) := by
  have hov : (Temp.val q).bGe s.maxTemp = false := by
    simp [Temp.bGe]
    linarith
  have hlo' : (Temp.val q).bLt (-50) = false := by
    simp [Temp.bLt]
    linarith
  have hhi' : (Temp.val q).bGt 500 = false := by
    simp [Temp.bGt]
    linarith
  have hblt : (Temp.val q).bLt (s.maxTemp - 5) = true := by
    simp [Temp.bLt]
    linarith
  obtain ⟨c, hc⟩ := processTemp_shape s (Temp.val q)
  have hclear := checkFault_clear
    { s with currentTemp := Temp.val q
             tempIndex := (s.tempIndex + 1) % s.tempFilterSize
             tempChangedCbCount := c }
    (Temp.val q) hov (Temp.val_isNan q) hlo' hhi' hf hblt
  rw [hc]
  simp only []
  rw [hclear]
  simp only [Bool.not_false, if_true]
  constructor
  · simpa using (bang_fields _).1
  · intro hset hq
    apply bang_on
    · simpa using hset
    · simp [Temp.bLt]
      linarith

theorem processTemp_latched (s : State) (q : ℚ)
    (hf : s.fault = true) (hlo : (-50:ℚ) ≤ q) (hhi : q ≤ 500)
    (hmax : q < s.maxTemp) (hncl : s.maxTemp - 5 ≤ q) :
    (processTemperatureReading s (Temp.val q)).fault = true
    ∧ (processTemperatureReading s (Temp.val q)).isRunning_ = s.isRunning_ := by
  have hov : (Temp.val q).bGe s.maxTemp = false := by
    simp [Temp.bGe]
    linarith
  have hlo' : (Temp.val q).bLt (-50) = false := by
    simp [Temp.bLt]
    linarith
  have hhi' : (Temp.val q).bGt 500 = false := by
    simp [Temp.bGt]
    linarith
  have hblt : (Temp.val q).bLt (s.maxTemp - 5) = false := by
    simp [Temp.bLt]
    linarith
  obtain ⟨c, hc⟩ := processTemp_shape s (Temp.val q)
  have hkeep := checkFault_keep
    { s with currentTemp := Temp.val q
             tempIndex := (s.tempIndex + 1) % s.tempFilterSize
             tempChangedCbCount := c }
    (Temp.val q) hov (Temp.val_isNan q) hlo' hhi' (by simp [hblt])
  rw [hc]
  simp only []
  rw [hkeep]
  simp [hf]

theorem run_stays_on (s : State) (ts : List Temp)
    (hset : s.targetTempSet = true) (hf : s.fault = false)
    (htol : 0 ≤ s.targetTolerance) (hrun : s.isRunning_ = true)
    (hts : ∀ t ∈ ts, ∃ q, t = Temp.val q ∧ (-50:ℚ) ≤ q ∧ q ≤ 500 ∧ q < s.maxTemp
        ∧ q < s.targetTemp + s.targetTolerance) :
    (run s ts).isRunning_ = true := by
  induction ts generalizing s with
  | nil => simpa [run]
  | cons t ts ih =>
    obtain ⟨q, rfl, hq1, hq2, hq3, hq4⟩ := hts _ (List.mem_cons_self t ts)
    have H := processTemp_nofault_inrange s q hf htol hq1 hq2 hq3
    have hstep : (processTemperatureReading s (Temp.val q)).isRunning_ = true := by
      by_cases hq : q < s.targetTemp - s.targetTolerance
      · exact H.2.2.2.2.2.2.1 hset hq
      · rw [H.2.2.2.2.2.2.2.1 hset (by linarith) hq4]
        exact hrun
    have hrw : run s (Temp.val q :: ts) = run (processTemperatureReading s (Temp.val q)) ts := by
      simp [run]
    rw [hrw]
    apply ih
    · rw [H.2.1]; exact hset
    · exact H.1
    · rw [H.2.2.2.1]; exact htol
    · exact hstep
    · intro u hu
      obtain ⟨r, hr, h1, h2, h3, h4⟩ := hts u (List.mem_cons_of_mem _ hu)
      refine ⟨r, hr, h1, h2, ?_, ?_⟩
      · rw [H.2.2.2.2.1]; exact h3
      · rw [H.2.2.1, H.2.2.2.1]; exact h4

theorem run_stays_off (s : State) (ts : List Temp)
    (hset : s.targetTempSet = true) (hf : s.fault = false)
    (htol : 0 ≤ s.targetTolerance) (hrun : s.isRunning_ = false)
    (hts : ∀ t ∈ ts, ∃ q, t = Temp.val q ∧ (-50:ℚ) ≤ q ∧ q ≤ 500 ∧ q < s.maxTemp
        ∧ s.targetTemp - s.targetTolerance ≤ q) :
    (run s ts).isRunning_ = false := by
  induction ts generalizing s with
  | nil => simpa [run]
  | cons t ts ih =>
    obtain ⟨q, rfl, hq1, hq2, hq3, hq4⟩ := hts _ (List.mem_cons_self t ts)
    have H := processTemp_nofault_inrange s q hf htol hq1 hq2 hq3
    have hstep : (processTemperatureReading s (Temp.val q)).isRunning_ = false := by
      by_cases hq : q < s.targetTemp + s.targetTolerance
      · rw [H.2.2.2.2.2.2.2.1 hset hq4 hq]
        exact hrun
      · exact H.2.2.2.2.2.2.2.2 hset (by linarith)
    have hrw : run s (Temp.val q :: ts) = run (processTemperatureReading s (Temp.val q)) ts := by
      simp [run]
    rw [hrw]
    apply ih
    · rw [H.2.1]; exact hset
    · exact H.1
    · rw [H.2.2.2.1]; exact htol
    · exact hstep
    · intro u hu
      obtain ⟨r, hr, h1, h2, h3, h4⟩ := hts u (List.mem_cons_of_mem _ hu)
      refine ⟨r, hr, h1, h2, ?_, ?_⟩
      · rw [H.2.2.2.2.1]; exact h3
      · rw [H.2.2.1, H.2.2.2.1]; exact h4

theorem run_inband_keeps (s : State) (ts : List Temp)
    (hset : s.targetTempSet = true) (hf : s.fault = false)
    (htol : 0 ≤ s.targetTolerance)
    (hts : ∀ t ∈ ts, ∃ q, t = Temp.val q ∧ (-50:ℚ) ≤ q ∧ q ≤ 500 ∧ q < s.maxTemp
        ∧ s.targetTemp - s.targetTolerance < q ∧ q < s.targetTemp + s.targetTolerance) :
    (run s ts).isRunning_ = s.isRunning_ := by
  induction ts generalizing s with
  | nil => simp [run]
  | cons t ts ih =>
    obtain ⟨q, rfl, hq1, hq2, hq3, hq4, hq5⟩ := hts _ (List.mem_cons_self t ts)
    have H := processTemp_nofault_inrange s q hf htol hq1 hq2 hq3
    have hstep : (processTemperatureReading s (Temp.val q)).isRunning_ = s.isRunning_ :=
      H.2.2.2.2.2.2.2.1 hset (by linarith) hq5
    have hrw : run s (Temp.val q :: ts) = run (processTemperatureReading s (Temp.val q)) ts := by
      simp [run]
    rw [hrw]
    rw [← hstep]
    apply ih
    · rw [H.2.1]; exact hset
    · exact H.1
    · rw [H.2.2.2.1]; exact htol
    · intro u hu
      obtain ⟨r, hr, h1, h2, h3, h4, h5⟩ := hts u (List.mem_cons_of_mem _ hu)
      refine ⟨r, hr, h1, h2, ?_, ?_, ?_⟩
      · rw [H.2.2.2.2.1]; exact h3
      · rw [H.2.2.1, H.2.2.2.1]; exact h4
      · rw [H.2.2.1, H.2.2.2.1]; exact h5

end HeatingElement

namespace StirrerPhase

theorem scheduleFire_lastZc (s : State) (us : ℕ) :
    (scheduleFireFromNow s us).lastZcUsec = s.lastZcUsec := by
  unfold scheduleFireFromNow
  split_ifs <;> simp_all

theorem zc_stores_timestamp (s : State) (now : ℤ) :
    (zc_isr_handler s now).lastZcUsec = now := by
  simp only [zc_isr_handler]
  split_ifs <;> simp [scheduleFire_lastZc]

theorem zc_bounce_discard (s : State) (now : ℤ)
    (hprev : s.lastZcUsec ≠ 0)
    (hnear : now - s.lastZcUsec < ((s.halfCycleUs / 3 : ℕ) : ℤ)) :
    zc_isr_handler s now = { s with lastZcUsec := now } := by
  simp only [zc_isr_handler]
  rw [if_pos]
  simp only [Bool.and_eq_true, decide_eq_true_eq]
  exact ⟨hprev, hnear⟩

theorem zc_accept_arm (s : State) (now : ℤ)
    (hfar : s.lastZcUsec = 0 ∨ ¬(now - s.lastZcUsec < ((s.halfCycleUs / 3 : ℕ) : ℤ)))
    (hrun : s.running = true) (hd : s.delayUs < s.halfCycleUs) :
    (zc_isr_handler s now).armCount = s.armCount + 1
    ∧ (zc_isr_handler s now).fireScheduled = true
    ∧ (zc_isr_handler s now).delayTimerArmed = true := by
  simp only [zc_isr_handler]
  rw [if_neg]
  · unfold scheduleFireFromNow
    rw [if_neg (by simp [hrun]), if_neg (by simp; omega)]
    simp
  · simp only [Bool.and_eq_true, decide_eq_true_eq, not_and]
    intro hp
    rcases hfar with h | h
    · exact absurd h hp
    · exact h

theorem zc_not_running (s : State) (now : ℤ) (hrun : s.running = false) :
    (zc_isr_handler s now).armCount = s.armCount
    ∧ (zc_isr_handler s now).fireScheduled = s.fireScheduled
    ∧ (zc_isr_handler s now).delayTimerArmed = s.delayTimerArmed
    ∧ (zc_isr_handler s now).mocLevel = s.mocLevel := by
  simp only [zc_isr_handler, scheduleFireFromNow]
  split_ifs <;> simp_all

theorem computeDelay_le (s : State) (pct : ℚ) :
    computeDelayFromPercent s pct ≤ s.halfCycleUs - 200 := by
  simp only [computeDelayFromPercent]
  split_ifs <;> omega

theorem setTargetRPM_le (s : State) (rpm : ℚ) :
    (setTargetRPM s rpm).delayUs ≤ s.halfCycleUs - 200 := by
  simp only [setTargetRPM]
  exact computeDelay_le s _

theorem clamp2_x_facts (lo hi : ℚ) (h : lo < hi) (p q : ℚ) (hpq : p ≤ q) :
    0 ≤ ((if (if p ≤ lo then lo else p) ≥ hi then hi
          else if p ≤ lo then lo else p) - lo) / (hi - lo)
    ∧ ((if (if p ≤ lo then lo else p) ≥ hi then hi
          else if p ≤ lo then lo else p) - lo) / (hi - lo)
        ≤ ((if (if q ≤ lo then lo else q) ≥ hi then hi
            else if q ≤ lo then lo else q) - lo) / (hi - lo) := by
  have hpos : (0:ℚ) < hi - lo := by linarith
  constructor
  · apply div_nonneg _ hpos.le
    split_ifs <;> linarith
  · rw [div_le_div_iff_of_pos_right hpos]
    split_ifs <;> linarith

theorem delay_tail_anti (hcUs : ℕ) (x y : ℚ) (hxy : x ≤ y) (hx0 : 0 ≤ x) :
    (if ⌊(1 - y * y) * (hcUs : ℚ)⌋.toNat > hcUs - 200 then hcUs - 200
     else ⌊(1 - y * y) * (hcUs : ℚ)⌋.toNat)
    ≤ (if ⌊(1 - x * x) * (hcUs : ℚ)⌋.toNat > hcUs - 200 then hcUs - 200
       else ⌊(1 - x * x) * (hcUs : ℚ)⌋.toNat) := by
  have hm : x * x ≤ y * y := mul_le_mul hxy hxy hx0 (hx0.trans hxy)
  have h1 : (1 - y * y) * (hcUs:ℚ) ≤ (1 - x * x) * (hcUs:ℚ) := by
    apply mul_le_mul_of_nonneg_right _ (by positivity)
    linarith
  have h3 : ⌊((1:ℚ) - y * y) * (hcUs : ℚ)⌋.toNat
      ≤ ⌊((1:ℚ) - x * x) * (hcUs : ℚ)⌋.toNat :=
    Int.toNat_le_toNat (Int.floor_le_floor h1)
  split_ifs <;> omega

theorem computeDelay_anti (s : State) (h : s.minPercent < s.maxPercent)
    (p q : ℚ) (hpq : p ≤ q) :
    computeDelayFromPercent s q ≤ computeDelayFromPercent s p := by
  obtain ⟨hx0, hxy⟩ := clamp2_x_facts s.minPercent s.maxPercent h p q hpq
  simp only [computeDelayFromPercent]
  exact delay_tail_anti s.halfCycleUs _ _ hxy hx0

theorem setTargetRPM_anti (s : State) (h : s.minPercent < s.maxPercent)
    (hmax : 0 < s.maxRpm) (r1 r2 : ℚ) (h12 : r1 ≤ r2) :
    (setTargetRPM s r2).delayUs ≤ (setTargetRPM s r1).delayUs := by
  simp only [setTargetRPM]
  apply computeDelay_anti s h
  have hp : rpmToPercent s r1 ≤ rpmToPercent s r2 := by
    unfold rpmToPercent
    have h0 : r1 / s.maxRpm ≤ r2 / s.maxRpm := by
      rw [div_le_div_iff_of_pos_right hmax]
      exact h12
    linarith
  split_ifs <;> linarith [hp]

theorem init50_halfCycle : (init 50).halfCycleUs = 10000 := by
  norm_num [init]

theorem setTargetRPM_1500_eval :
    (setTargetRPM (init 50) 1500).delayUs = 7500 := by
  norm_num [setTargetRPM, rpmToPercent, computeDelayFromPercent, init] <;> rfl

theorem setTargetRPM_0_eval :
    (setTargetRPM (init 50) 0).delayUs = 9800 := by
  norm_num [setTargetRPM, rpmToPercent, computeDelayFromPercent, init] <;> rfl

theorem two_edges_one_arm :
    (zc_isr_handler (zc_isr_handler (start (init 50)) 10000) 12000).armCount = 1
    ∧ (zc_isr_handler (start (init 50)) 10000).armCount = 1 := by
  decide

end StirrerPhase

namespace HeaterModeManager

theorem update_off (m : State) (t : Temp) (now : ℕ) (hm : m.mode = Mode.OFF) :
    (update m t now).mode = Mode.OFF
    ∧ (update m t now).onCompleteCbCount = m.onCompleteCbCount := by
  unfold update handleFault setOff
  simp only [hm]
  split_ifs <;> simp_all

theorem updates_off (m : State) (l : List (Temp × ℕ)) (hm : m.mode = Mode.OFF) :
    (l.foldl (fun st p => update st p.1 p.2) m).mode = Mode.OFF
    ∧ (l.foldl (fun st p => update st p.1 p.2) m).onCompleteCbCount
        = m.onCompleteCbCount := by
  induction l generalizing m with
  | nil => simp [hm]
  | cons p l ih =>
    have h1 := update_off m p.1 p.2 hm
    simp only [List.foldl_cons]
    obtain ⟨ha, hb⟩ := ih (update m p.1 p.2) h1.1
    exact ⟨ha, by rw [hb, h1.2]⟩

theorem update_ramp_done (m : State) (t : Temp) (now : ℕ)
    (hm : m.mode = Mode.RAMP) (hf : m.heater.fault = false)
    (hdur : m.rampParams.duration ≤ now - m.rampParams.startTime) :
    (update m t now).heater.targetTemp = m.rampParams.endTemp
    ∧ (update m t now).onCompleteCbCount = m.onCompleteCbCount + 1
    ∧ (update m t now).mode = Mode.OFF
    ∧ (update m t now).heater.fault = false := by
  unfold update updateRampMode setOff
  simp only [hm]
  rw [if_neg (by simp [hf])]
  rw [if_pos hdur]
  simp only [HeatingElement.stop_eq, HeatingElement.clearTargetTemperature,
    HeatingElement.setTargetTemperature]
  split_ifs <;> simp_all

theorem update_ramp_progress (m : State) (t : Temp) (now : ℕ)
    (hm : m.mode = Mode.RAMP) (hf : m.heater.fault = false)
    (hdur : now - m.rampParams.startTime < m.rampParams.duration) :
    (update m t now).heater.targetTemp
      = m.rampParams.startTemp + (m.rampParams.endTemp - m.rampParams.startTemp)
          * (((now - m.rampParams.startTime : ℕ) : ℚ) / (m.rampParams.duration : ℚ))
    ∧ (update m t now).mode = Mode.RAMP
    ∧ (update m t now).onCompleteCbCount = m.onCompleteCbCount
    ∧ (update m t now).heater.targetTempSet = true := by
  have hdpos : (0:ℚ) < (m.rampParams.duration : ℚ) := by
    have h : 0 < m.rampParams.duration := by omega
    exact_mod_cast h
  have h0 : (0:ℚ) ≤ ((now - m.rampParams.startTime : ℕ) : ℚ) / (m.rampParams.duration : ℚ) :=
    div_nonneg (by positivity) hdpos.le
  have h1 : ((now - m.rampParams.startTime : ℕ) : ℚ) / (m.rampParams.duration : ℚ) ≤ 1 := by
    rw [div_le_one hdpos]
    exact_mod_cast hdur.le
  unfold update updateRampMode calculateRampTarget
  simp only [hm]
  rw [if_neg (by simp [hf])]
  rw [if_neg (by omega)]
  rw [max_eq_right h0, min_eq_right h1]
  split_ifs <;>
    simp_all [HeatingElement.start_eq, HeatingElement.setTargetTemperature] <;>
    split_ifs <;> simp_all

end HeaterModeManager

/-- C1: evaluation of the code at the failing input.  After a zero-cross edge has
armed the delay timer (`fireScheduled = true`), calling `stop()` leaves
`fireScheduled` true, and the already-armed delay-timer callback still asserts the
MOC gate output.  This refutes the claimed stop-cancels-fire behaviour on the code
as written: `StirrerPhase::stop` never clears `fireScheduled` nor stops the delay
timer, and `delayTimerCb` checks only `fireScheduled`, not `running`. -/
theorem C1_stop_spurious_gate_eval :
    (StirrerPhase.zc_isr_handler (StirrerPhase.start (StirrerPhase.init 50))
        10000).fireScheduled = true
    ∧ (StirrerPhase.stop (StirrerPhase.zc_isr_handler
        (StirrerPhase.start (StirrerPhase.init 50)) 10000)).running = false
    ∧ (StirrerPhase.stop (StirrerPhase.zc_isr_handler
        (StirrerPhase.start (StirrerPhase.init 50)) 10000)).fireScheduled = true
    ∧ (StirrerPhase.stop (StirrerPhase.zc_isr_handler
        (StirrerPhase.start (StirrerPhase.init 50)) 10000)).mocLevel = false
    ∧ (StirrerPhase.delayTimerCb (StirrerPhase.stop (StirrerPhase.zc_isr_handler
        (StirrerPhase.start (StirrerPhase.init 50)) 10000))).mocLevel = true := by
  decide

/-- C2: thermal-loop hysteresis.  For every temperature sequence fed to the
per-sample pipeline with a target set, a nonnegative tolerance and no fault
occurring (all samples valid and below `maxTemp`): once the relay is on it stays on
through every sample below `target + tolerance`; once off it stays off through
every sample at or above `target − tolerance`; and samples strictly inside the band
`(target − tolerance, target + tolerance)` leave the relay state unchanged. -/
theorem C2_hysteresis_property :
    (∀ (s : HeatingElement.State) (ts : List Temp),
        s.targetTempSet = true → s.fault = false → 0 ≤ s.targetTolerance →
        s.isRunning_ = true →
        (∀ t ∈ ts, ∃ q, t = Temp.val q ∧ (-50:ℚ) ≤ q ∧ q ≤ 500 ∧ q < s.maxTemp
            ∧ q < s.targetTemp + s.targetTolerance) →
        (HeatingElement.run s ts).isRunning_ = true)
    ∧ (∀ (s : HeatingElement.State) (ts : List Temp),
        s.targetTempSet = true → s.fault = false → 0 ≤ s.targetTolerance →
        s.isRunning_ = false →
        (∀ t ∈ ts, ∃ q, t = Temp.val q ∧ (-50:ℚ) ≤ q ∧ q ≤ 500 ∧ q < s.maxTemp
            ∧ s.targetTemp - s.targetTolerance ≤ q) →
        (HeatingElement.run s ts).isRunning_ = false)
    ∧ (∀ (s : HeatingElement.State) (ts : List Temp),
        s.targetTempSet = true → s.fault = false → 0 ≤ s.targetTolerance →
        (∀ t ∈ ts, ∃ q, t = Temp.val q ∧ (-50:ℚ) ≤ q ∧ q ≤ 500 ∧ q < s.maxTemp
            ∧ s.targetTemp - s.targetTolerance < q ∧ q < s.targetTemp + s.targetTolerance) →
        (HeatingElement.run s ts).isRunning_ = s.isRunning_) :=
  ⟨fun s ts h1 h2 h3 h4 h5 => HeatingElement.run_stays_on s ts h1 h2 h3 h4 h5,
   fun s ts h1 h2 h3 h4 h5 => HeatingElement.run_stays_off s ts h1 h2 h3 h4 h5,
   fun s ts h1 h2 h3 h4 => HeatingElement.run_inband_keeps s ts h1 h2 h3 h4⟩

/-- C2 witness: a started heater with target 50 ± 1 stays on through the sample
49 (inside the turn-on region, below `target + tolerance`). -/
theorem C2_hysteresis_property_witness :
    (HeatingElement.run
      (HeatingElement.setRelay
        (HeatingElement.setTargetTemperature (HeatingElement.init 100 1) 50 1) true)
      [Temp.val 49]).isRunning_ = true := by
  apply C2_hysteresis_property.1
  · simp [HeatingElement.setRelay, HeatingElement.setTargetTemperature, HeatingElement.init]
  · simp [HeatingElement.setRelay, HeatingElement.setTargetTemperature, HeatingElement.init]
  · simp [HeatingElement.setRelay, HeatingElement.setTargetTemperature, HeatingElement.init]
  · simp [HeatingElement.setRelay, HeatingElement.setTargetTemperature, HeatingElement.init]
  · intro t ht
    simp only [List.mem_singleton] at ht
    subst ht
    refine ⟨49, rfl, by norm_num, by norm_num, ?_, ?_⟩
    · simp [HeatingElement.setRelay, HeatingElement.setTargetTemperature, HeatingElement.init]
      norm_num
    · simp [HeatingElement.setRelay, HeatingElement.setTargetTemperature, HeatingElement.init]
      norm_num

/-- C3: over-temperature fail-safe.  For every sample `temp ≥ maxTemp` processed by
the per-sample pipeline, within that same call the fault flag becomes true, the
relay is forced off, the fault callback fires exactly once, and bang-bang control
and target-reached detection are skipped (the heater-on callback and the
target-reached latch and callback are untouched). -/
theorem C3_overtemp_failsafe (s : HeatingElement.State) (q : ℚ) (h : s.maxTemp ≤ q) :
    (HeatingElement.processTemperatureReading s (Temp.val q)).fault = true
    ∧ (HeatingElement.processTemperatureReading s (Temp.val q)).isRunning_ = false
    ∧ (HeatingElement.processTemperatureReading s (Temp.val q)).faultCbCount
        = s.faultCbCount + 1
    ∧ (HeatingElement.processTemperatureReading s (Temp.val q)).heaterOnCbCount
        = s.heaterOnCbCount
    ∧ (HeatingElement.processTemperatureReading s (Temp.val q)).targetReachedTriggered
        = s.targetReachedTriggered
    ∧ (HeatingElement.processTemperatureReading s (Temp.val q)).targetReachedCbCount
        = s.targetReachedCbCount :=
  HeatingElement.heating_overtemp_step s q h

/-- C3 witness: a 150 °C sample against the default 100 °C limit trips the fault. -/
theorem C3_overtemp_failsafe_witness :
    (HeatingElement.processTemperatureReading (HeatingElement.init 100 1)
        (Temp.val 150)).fault = true :=
  (C3_overtemp_failsafe (HeatingElement.init 100 1) 150
    (by norm_num [HeatingElement.init])).1

/-- C4 counterexample: with the 50 Hz constructor state (halfCycleUs = 10000) and
`setTargetRPM 0`, the stored firing delay is exactly `halfCycleUs − 200 = 9800`,
so the claimed strict bound `firingDelay < halfCycleUs − 200` is false. -/
theorem C4_strict_bound_counterexample :
    (StirrerPhase.setTargetRPM (StirrerPhase.init 50) 0).delayUs
        = (StirrerPhase.init 50).halfCycleUs - 200
    ∧ ¬((StirrerPhase.setTargetRPM (StirrerPhase.init 50) 0).delayUs
        < (StirrerPhase.init 50).halfCycleUs - 200) := by
  have h1 := StirrerPhase.setTargetRPM_0_eval
  have h2 := StirrerPhase.init50_halfCycle
  constructor
  · rw [h1, h2]
  · rw [h1, h2]
    omega

/-- C4 (amended): for every rpm and every parameter setting with
`minPercent < maxPercent` and `200 ≤ halfCycleUs` (as produced by the constructor),
the firing delay stored by `setTargetRPM` is at most — not strictly less than —
`halfCycleUs − 200`; the bound is attained, e.g. at rpm = 0. -/
theorem C4_delay_bound_amended (s : StirrerPhase.State) (rpm : ℚ)
    (hmm : s.minPercent < s.maxPercent) (hhc : 200 ≤ s.halfCycleUs) :
    (StirrerPhase.setTargetRPM s rpm).delayUs ≤ s.halfCycleUs - 200 :=
  StirrerPhase.setTargetRPM_le s rpm

/-- C4 witness: the amended bound at the 50 Hz defaults and rpm = 3000. -/
theorem C4_delay_bound_amended_witness :
    (StirrerPhase.setTargetRPM (StirrerPhase.init 50) 3000).delayUs
      ≤ (StirrerPhase.init 50).halfCycleUs - 200 :=
  C4_delay_bound_amended (StirrerPhase.init 50) 3000
    (by norm_num [StirrerPhase.init]) (by norm_num [StirrerPhase.init])

/-- C5: the RPM-to-delay mapping at the 50 Hz defaults (`minPercent = 5`,
`maxPercent = 95`, `maxRpm = 3000`, gamma = 2): rpm = 1500 yields a delay of
exactly 7500 µs; the delay is antitone in the target rpm; and the delay never
exceeds `halfCycleUs − 200`. -/
theorem C5_rpm_delay_mapping :
    (StirrerPhase.setTargetRPM (StirrerPhase.init 50) 1500).delayUs = 7500
    ∧ (∀ r1 r2 : ℚ, r1 ≤ r2 →
        (StirrerPhase.setTargetRPM (StirrerPhase.init 50) r2).delayUs
          ≤ (StirrerPhase.setTargetRPM (StirrerPhase.init 50) r1).delayUs)
    ∧ (∀ r : ℚ, (StirrerPhase.setTargetRPM (StirrerPhase.init 50) r).delayUs
          ≤ (StirrerPhase.init 50).halfCycleUs - 200) := by
  refine ⟨StirrerPhase.setTargetRPM_1500_eval, ?_, ?_⟩
  · intro r1 r2 h12
    exact StirrerPhase.setTargetRPM_anti _ (by norm_num [StirrerPhase.init])
      (by norm_num [StirrerPhase.init]) r1 r2 h12
  · intro r
    exact StirrerPhase.setTargetRPM_le _ r

/-- C5 witness: a higher target rpm (3000 vs 1500) yields a smaller-or-equal delay. -/
theorem C5_rpm_delay_mapping_witness :
    (StirrerPhase.setTargetRPM (StirrerPhase.init 50) 3000).delayUs
      ≤ (StirrerPhase.setTargetRPM (StirrerPhase.init 50) 1500).delayUs :=
  C5_rpm_delay_mapping.2.1 1500 3000 (by norm_num)

namespace HeatingElement

theorem processTemp_keeps_nofault (s : State) (q : ℚ)
    (hf : s.fault = false) (hlo : (-50:ℚ) ≤ q) (hhi : q ≤ 500) (hmax : q < s.maxTemp) :
    (processTemperatureReading s (Temp.val q)).fault = false := by
  have hov : (Temp.val q).bGe s.maxTemp = false := by
    simp [Temp.bGe]
    linarith
  have hlo' : (Temp.val q).bLt (-50) = false := by
    simp [Temp.bLt]
    linarith
  have hhi' : (Temp.val q).bGt 500 = false := by
    simp [Temp.bGt]
    linarith
  obtain ⟨c, hc⟩ := processTemp_shape s (Temp.val q)
  have hkeep := checkFault_keep
    { s with currentTemp := Temp.val q
             tempIndex := (s.tempIndex + 1) % s.tempFilterSize
             tempChangedCbCount := c }
    (Temp.val q) hov (Temp.val_isNan q) hlo' hhi' (by simp [hf])
  rw [hc]
  simp only []
  rw [hkeep]
  simp only [hf, Bool.not_false, if_true]
  simpa [hf] using (bang_fields _).1

end HeatingElement

/-- C6 counterexample: with a running 50 Hz stirrer, an edge at t = 10000 µs is
accepted and armed; a second edge at t = 12000 µs is 2000 µs later, inside the
debounce window (`halfCycleUs / 3 = 3333`), so it is discarded and arms nothing —
yet, contrary to the claim that `now` is stored as `lastTimestamp` *only* for
accepted edges, the handler's unconditional `exchange` has already overwritten
`lastZcUsec` with 12000. -/
theorem C6_debounce_counterexample :
    ((12000:ℤ) - (StirrerPhase.zc_isr_handler (StirrerPhase.start
        (StirrerPhase.init 50)) 10000).lastZcUsec
      < (((StirrerPhase.zc_isr_handler (StirrerPhase.start
        (StirrerPhase.init 50)) 10000).halfCycleUs / 3 : ℕ) : ℤ))
    ∧ (StirrerPhase.zc_isr_handler (StirrerPhase.zc_isr_handler
        (StirrerPhase.start (StirrerPhase.init 50)) 10000) 12000).armCount
      = (StirrerPhase.zc_isr_handler (StirrerPhase.start
        (StirrerPhase.init 50)) 10000).armCount
    ∧ (StirrerPhase.zc_isr_handler (StirrerPhase.zc_isr_handler
        (StirrerPhase.start (StirrerPhase.init 50)) 10000) 12000).lastZcUsec = 12000
    ∧ (StirrerPhase.zc_isr_handler (StirrerPhase.zc_isr_handler
        (StirrerPhase.start (StirrerPhase.init 50)) 10000) 12000).lastZcUsec
      ≠ (StirrerPhase.zc_isr_handler (StirrerPhase.start
        (StirrerPhase.init 50)) 10000).lastZcUsec := by
  decide

/-- C6 (amended): every edge processed by the zero-cross handler first stores `now`
into `lastZcUsec` (the atomic exchange is unconditional, so bounce edges also
update the timestamp); then, if the previous timestamp was nonzero and
`now − prev < halfCycleUs / 3`, the edge is discarded with no timer armed and no
other state change; otherwise the stored firing delay is read and — only if
`running` and the delay is below `halfCycleUs` — the delay timer is armed with
`fireScheduled` set true; when not running nothing is armed.  Two edges 2000 µs
apart at 50 Hz arm the delay timer exactly once. -/
theorem C6_debounce_amended :
    (∀ (s : StirrerPhase.State) (now : ℤ),
        (StirrerPhase.zc_isr_handler s now).lastZcUsec = now)
    ∧ (∀ (s : StirrerPhase.State) (now : ℤ),
        s.lastZcUsec ≠ 0 →
        now - s.lastZcUsec < ((s.halfCycleUs / 3 : ℕ) : ℤ) →
        StirrerPhase.zc_isr_handler s now = { s with lastZcUsec := now })
    ∧ (∀ (s : StirrerPhase.State) (now : ℤ),
        (s.lastZcUsec = 0 ∨ ¬(now - s.lastZcUsec < ((s.halfCycleUs / 3 : ℕ) : ℤ))) →
        s.running = true → s.delayUs < s.halfCycleUs →
        (StirrerPhase.zc_isr_handler s now).armCount = s.armCount + 1
        ∧ (StirrerPhase.zc_isr_handler s now).fireScheduled = true
        ∧ (StirrerPhase.zc_isr_handler s now).delayTimerArmed = true)
    ∧ (∀ (s : StirrerPhase.State) (now : ℤ),
        s.running = false →
        (StirrerPhase.zc_isr_handler s now).armCount = s.armCount
        ∧ (StirrerPhase.zc_isr_handler s now).fireScheduled = s.fireScheduled)
    ∧ ((StirrerPhase.zc_isr_handler (StirrerPhase.zc_isr_handler
          (StirrerPhase.start (StirrerPhase.init 50)) 10000) 12000).armCount = 1
       ∧ (StirrerPhase.zc_isr_handler (StirrerPhase.start
          (StirrerPhase.init 50)) 10000).armCount = 1) :=
  ⟨StirrerPhase.zc_stores_timestamp,
   fun s now h1 h2 => StirrerPhase.zc_bounce_discard s now h1 h2,
   fun s now h1 h2 h3 => StirrerPhase.zc_accept_arm s now h1 h2 h3,
   fun s now h => ⟨(StirrerPhase.zc_not_running s now h).1,
     (StirrerPhase.zc_not_running s now h).2.1⟩,
   StirrerPhase.two_edges_one_arm⟩

/-- C6 witness: the bounce edge at 12000 µs only rewrites the timestamp. -/
theorem C6_debounce_amended_witness :
    StirrerPhase.zc_isr_handler (StirrerPhase.zc_isr_handler
      (StirrerPhase.start (StirrerPhase.init 50)) 10000) 12000
    = { StirrerPhase.zc_isr_handler (StirrerPhase.start (StirrerPhase.init 50)) 10000
        with lastZcUsec := 12000 } :=
  C6_debounce_amended.2.1 _ 12000 (by decide) (by decide)

/-- C7: ramp behaviour with `setRamp(20, 80, 100 s)` parameters (startTemp 20,
endTemp 80, duration 100000 ms) and no fault: every `update()` with
`elapsed < 100000` ms sets the thermal-loop target to
`20 + 60 × (elapsed / 100000)` and stays in RAMP without firing the completion
callback; once `elapsed ≥ 100000` ms the target is set to 80, the completion
callback fires, the mode becomes OFF, and across every sequence of subsequent
updates the completion count never increases again (it fired exactly once). -/
theorem C7_ramp_behavior (m : HeaterModeManager.State) (t : Temp) (now : ℕ)
    (hm : m.mode = HeaterModeManager.Mode.RAMP)
    (h20 : m.rampParams.startTemp = 20) (h80 : m.rampParams.endTemp = 80)
    (hdur : m.rampParams.duration = 100000) (hf : m.heater.fault = false)
    (hst : m.rampParams.startTime ≤ now) :
    (now - m.rampParams.startTime < 100000 →
        (HeaterModeManager.update m t now).heater.targetTemp
          = 20 + 60 * (((now - m.rampParams.startTime : ℕ) : ℚ) / 100000)
        ∧ (HeaterModeManager.update m t now).mode = HeaterModeManager.Mode.RAMP
        ∧ (HeaterModeManager.update m t now).onCompleteCbCount = m.onCompleteCbCount)
    ∧ (100000 ≤ now - m.rampParams.startTime →
        (HeaterModeManager.update m t now).heater.targetTemp = 80
        ∧ (HeaterModeManager.update m t now).onCompleteCbCount = m.onCompleteCbCount + 1
        ∧ (HeaterModeManager.update m t now).mode = HeaterModeManager.Mode.OFF
        ∧ ∀ l : List (Temp × ℕ),
            (l.foldl (fun st p => HeaterModeManager.update st p.1 p.2)
              (HeaterModeManager.update m t now)).onCompleteCbCount
            = m.onCompleteCbCount + 1) := by
  constructor
  · intro hlt
    have H := HeaterModeManager.update_ramp_progress m t now hm hf (by omega)
    refine ⟨?_, H.2.1, H.2.2.1⟩
    rw [H.1, h20, h80, hdur]
    push_cast
    ring
  · intro hge
    have H := HeaterModeManager.update_ramp_done m t now hm hf (by omega)
    refine ⟨by rw [H.1, h80], H.2.1, H.2.2.1, ?_⟩
    intro l
    have ho := HeaterModeManager.updates_off (HeaterModeManager.update m t now) l H.2.2.1
    rw [ho.2, H.2.1]

/-- C7 witness: a ramp entered at t = 1000 ms evaluated at t = 51000 ms
(elapsed = 50000 ms) sets the target to exactly 50 °C. -/
theorem C7_ramp_behavior_witness :
    (HeaterModeManager.update
      (HeaterModeManager.setRamp
        (HeaterModeManager.init (HeatingElement.init 100 1)) 20 80 100 (1/2) 1000)
      Temp.nan 51000).heater.targetTemp = 50 := by
  have H := (C7_ramp_behavior
    (HeaterModeManager.setRamp
      (HeaterModeManager.init (HeatingElement.init 100 1)) 20 80 100 (1/2) 1000)
    Temp.nan 51000
    (by simp [HeaterModeManager.setRamp, HeaterModeManager.init])
    (by simp [HeaterModeManager.setRamp, HeaterModeManager.init])
    (by simp [HeaterModeManager.setRamp, HeaterModeManager.init])
    (by simp [HeaterModeManager.setRamp, HeaterModeManager.init])
    (by simp [HeaterModeManager.setRamp, HeaterModeManager.init, HeatingElement.start,
      HeatingElement.setRelay, HeatingElement.setTargetTemperature, HeatingElement.init])
    (by simp [HeaterModeManager.setRamp, HeaterModeManager.init])).1
    (by simp [HeaterModeManager.setRamp, HeaterModeManager.init])
  rw [H.1]
  norm_num [HeaterModeManager.setRamp, HeaterModeManager.init]

/-- C8: relay/fault safety invariant of the thermal loop.  Each public operation
(`start`, `stop`, `setTargetTemperature`, `clearTargetTemperature`, and the
per-sample pipeline of `update()`) preserves the invariant "the relay is on only
while no fault is latched"; `start()` is a strict no-op while a fault is latched;
and every `update()` path that newly sets the fault also forces the relay off
before returning. -/
theorem C8_relay_fault_invariant :
    (∀ s : HeatingElement.State, ¬(s.isRunning_ = true ∧ s.fault = true) →
        ¬((HeatingElement.start s).isRunning_ = true
          ∧ (HeatingElement.start s).fault = true))
    ∧ (∀ s : HeatingElement.State, ¬(s.isRunning_ = true ∧ s.fault = true) →
        ¬((HeatingElement.stop s).isRunning_ = true
          ∧ (HeatingElement.stop s).fault = true))
    ∧ (∀ (s : HeatingElement.State) (tgt tol : ℚ),
        ¬(s.isRunning_ = true ∧ s.fault = true) →
        ¬((HeatingElement.setTargetTemperature s tgt tol).isRunning_ = true
          ∧ (HeatingElement.setTargetTemperature s tgt tol).fault = true))
    ∧ (∀ s : HeatingElement.State, ¬(s.isRunning_ = true ∧ s.fault = true) →
        ¬((HeatingElement.clearTargetTemperature s).isRunning_ = true
          ∧ (HeatingElement.clearTargetTemperature s).fault = true))
    ∧ (∀ (s : HeatingElement.State) (t : Temp),
        ¬(s.isRunning_ = true ∧ s.fault = true) →
        ¬((HeatingElement.processTemperatureReading s t).isRunning_ = true
          ∧ (HeatingElement.processTemperatureReading s t).fault = true))
    ∧ (∀ s : HeatingElement.State, s.fault = true → HeatingElement.start s = s)
    ∧ (∀ (s : HeatingElement.State) (t : Temp), s.fault = false →
        (HeatingElement.processTemperatureReading s t).fault = true →
        (HeatingElement.processTemperatureReading s t).isRunning_ = false) := by
  refine ⟨?_, ?_, ?_, ?_, ?_, ?_, ?_⟩
  · intro s h
    rw [HeatingElement.start_eq]
    split_ifs <;> simp_all
  · intro s h
    rw [HeatingElement.stop_eq]
    split_ifs <;> simp_all
  · intro s tgt tol h
    simpa [HeatingElement.setTargetTemperature] using h
  · intro s h
    simpa [HeatingElement.clearTargetTemperature] using h
  · intro s t h
    rcases t with _ | q
    · have H := HeatingElement.processTemp_faultpath s Temp.nan
        (Or.inr (by simp [Temp.isNan]))
      simp [H.2.1]
    · by_cases hq1 : q < -50
      · have H := HeatingElement.processTemp_faultpath s (Temp.val q)
          (Or.inr (by simp [Temp.isNan, Temp.bLt, Temp.bGt, hq1]))
        simp [H.2.1]
      · by_cases hq2 : (500:ℚ) < q
        · have H := HeatingElement.processTemp_faultpath s (Temp.val q)
            (Or.inr (by simp [Temp.isNan, Temp.bLt, Temp.bGt, hq2]))
          simp [H.2.1]
        · by_cases hq3 : s.maxTemp ≤ q
          · have H := HeatingElement.processTemp_faultpath s (Temp.val q)
              (Or.inl (by simp [Temp.bGe]; linarith))
            simp [H.2.1]
          · by_cases hfl : s.fault = true
            · by_cases hcl : q < s.maxTemp - 5
              · have H := HeatingElement.processTemp_clear s q hfl
                  (by linarith) (by linarith) hcl
                simp [H.1]
              · have H := HeatingElement.processTemp_latched s q hfl
                  (by linarith) (by linarith) (by linarith) (by linarith)
                intro hc
                rw [H.2] at hc
                exact h ⟨hc.1, hfl⟩
            · have H := HeatingElement.processTemp_keeps_nofault s q
                (by simpa using hfl) (by linarith) (by linarith) (by linarith)
              simp [H]
  · intro s h
    rw [HeatingElement.start_eq, if_pos h]
  · intro s t hf hres
    rcases t with _ | q
    · exact (HeatingElement.processTemp_faultpath s Temp.nan
        (Or.inr (by simp [Temp.isNan]))).2.1
    · by_cases hq1 : q < -50
      · exact (HeatingElement.processTemp_faultpath s (Temp.val q)
          (Or.inr (by simp [Temp.isNan, Temp.bLt, Temp.bGt, hq1]))).2.1
      · by_cases hq2 : (500:ℚ) < q
        · exact (HeatingElement.processTemp_faultpath s (Temp.val q)
            (Or.inr (by simp [Temp.isNan, Temp.bLt, Temp.bGt, hq2]))).2.1
        · by_cases hq3 : s.maxTemp ≤ q
          · exact (HeatingElement.processTemp_faultpath s (Temp.val q)
              (Or.inl (by simp [Temp.bGe]; linarith))).2.1
          · have H := HeatingElement.processTemp_keeps_nofault s q hf
              (by linarith) (by linarith) (by linarith)
            rw [H] at hres
            simp at hres

/-- C8 witness: `start()` on a faulted state is a strict no-op. -/
theorem C8_relay_fault_invariant_witness :
    HeatingElement.start { HeatingElement.init 100 1 with fault := true }
      = { HeatingElement.init 100 1 with fault := true } :=
  C8_relay_fault_invariant.2.2.2.2.2.1 _ (by simp [HeatingElement.init])

/-- C9: invalid-sample handling.  Every NaN sample and every sample below −50 °C
or above 500 °C is treated like an over-temperature fault within the same call:
the fault flag is set, the relay is forced off, the fault callback fires once, and
the bad value never drives the bang-bang relay decision (the heater-on callback
and the target-reached latch and callback are untouched). -/
theorem C9_invalid_sample_failsafe (s : HeatingElement.State) (t : Temp)
    (h : t = Temp.nan ∨ ∃ q : ℚ, t = Temp.val q ∧ (q < -50 ∨ 500 < q)) :
    (HeatingElement.processTemperatureReading s t).fault = true
    ∧ (HeatingElement.processTemperatureReading s t).isRunning_ = false
    ∧ (HeatingElement.processTemperatureReading s t).faultCbCount = s.faultCbCount + 1
    ∧ (HeatingElement.processTemperatureReading s t).heaterOnCbCount = s.heaterOnCbCount
    ∧ (HeatingElement.processTemperatureReading s t).targetReachedTriggered
        = s.targetReachedTriggered
    ∧ (HeatingElement.processTemperatureReading s t).targetReachedCbCount
        = s.targetReachedCbCount := by
  apply HeatingElement.processTemp_faultpath
  rcases h with rfl | ⟨q, rfl, hq | hq⟩
  · exact Or.inr (by simp [Temp.isNan])
  · exact Or.inr (by simp [Temp.isNan, Temp.bLt, Temp.bGt, hq])
  · exact Or.inr (by simp [Temp.isNan, Temp.bLt, Temp.bGt, hq])

/-- C9 witness: a NaN sample trips the fault and forces the relay off. -/
theorem C9_invalid_sample_failsafe_witness :
    (HeatingElement.processTemperatureReading (HeatingElement.init 100 1)
        Temp.nan).fault = true
    ∧ (HeatingElement.processTemperatureReading (HeatingElement.init 100 1)
        Temp.nan).isRunning_ = false :=
  ⟨(C9_invalid_sample_failsafe (HeatingElement.init 100 1) Temp.nan (Or.inl rfl)).1,
   (C9_invalid_sample_failsafe (HeatingElement.init 100 1) Temp.nan (Or.inl rfl)).2.1⟩

/-- C10: fault-clear policy.  From a latched fault with the relay off, an in-range
sample (−50 ≤ q ≤ 500) clears the fault exactly when `q < maxTemp − 5`; a sample in
`[maxTemp − 5, maxTemp)` leaves the fault latched with the relay still off; and in
the same call that clears the fault, bang-bang control resumes and switches the
relay back on when the sample demands heating. -/
theorem C10_fault_clear_policy (s : HeatingElement.State) (q : ℚ)
    (hf : s.fault = true) (hrun : s.isRunning_ = false)
    (hlo : (-50:ℚ) ≤ q) (hhi : q ≤ 500) :
    ((HeatingElement.processTemperatureReading s (Temp.val q)).fault = false
        ↔ q < s.maxTemp - 5)
    ∧ (s.maxTemp - 5 ≤ q → q < s.maxTemp →
        (HeatingElement.processTemperatureReading s (Temp.val q)).fault = true
        ∧ (HeatingElement.processTemperatureReading s (Temp.val q)).isRunning_ = false)
    ∧ (q < s.maxTemp - 5 → s.targetTempSet = true →
        q < s.targetTemp - s.targetTolerance →
        (HeatingElement.processTemperatureReading s (Temp.val q)).isRunning_ = true) := by
  refine ⟨⟨?_, ?_⟩, ?_, ?_⟩
  · intro hres
    by_contra hq
    push_neg at hq
    by_cases hmax : q < s.maxTemp
    · have H := HeatingElement.processTemp_latched s q hf hlo hhi hmax hq
      rw [H.1] at hres
      simp at hres
    · have H := HeatingElement.processTemp_faultpath s (Temp.val q)
        (Or.inl (by simp [Temp.bGe]; linarith))
      rw [H.1] at hres
      simp at hres
  · intro hq
    exact (HeatingElement.processTemp_clear s q hf hlo hhi hq).1
  · intro h5 hm
    have H := HeatingElement.processTemp_latched s q hf hlo hhi hm h5
    exact ⟨H.1, by rw [H.2, hrun]⟩
  · intro hcl hset hq
    exact (HeatingElement.processTemp_clear s q hf hlo hhi hcl).2 hset hq

/-- C10 witness: with `maxTemp = 100` and a latched fault, the sample 90 °C
(< maxTemp − 5 = 95) clears the fault. -/
theorem C10_fault_clear_policy_witness :
    (HeatingElement.processTemperatureReading
      { HeatingElement.init 100 1 with fault := true } (Temp.val 90)).fault = false :=
  (C10_fault_clear_policy { HeatingElement.init 100 1 with fault := true } 90
    (by simp [HeatingElement.init]) (by simp [HeatingElement.init])
    (by norm_num) (by norm_num)).1.mpr
    (by norm_num [HeatingElement.init])
